import Mathlib

/-!
Shallow embedding of the SFNT font decoder of this repository
(src/font/sfnt.go) and proofs about the claims of its specification.

Go values are modelled as follows: byte buffers become `List Nat` (each
entry one byte), machine integers become `Nat`/`Int` with explicit
`% 2^w` wherever Go arithmetic can wrap, fallible functions return a
`GoResult` that distinguishes a normal error return from a runtime
panic (out-of-range slice index, nil dereference, bad slice bounds).
-/

namespace Canvas

/-- A Go `[]byte` buffer: one `Nat` per byte. -/
abbrev Bytes := List Nat

/-- Outcome of running a Go function: a normal value, an error return
(`error` value), or a runtime panic. -/
inductive GoResult (α : Type) where
  | ok (val : α)
  | err (msg : String)
  | panic (msg : String)
deriving Repr, DecidableEq

namespace GoResult

def bind : GoResult α → (α → GoResult β) → GoResult β
  | .ok a, f => f a
  | .err m, _ => .err m
  | .panic m, _ => .panic m

def isOk : GoResult α → Bool
  | .ok _ => true
  | _ => false

end GoResult

/-- All entries of a buffer are actual byte values. -/
def IsBytes (b : Bytes) : Prop := ∀ x ∈ b, x < 256

/-- `b.getD i 0`: reading a byte that is known in range; Go slice reads
in the decoder happen only after an explicit remaining-length check. -/
def byteAt (b : Bytes) (i : Nat) : Nat := b.getD i 0

/-- Big-endian value of a byte list (Go `binary.BigEndian.UintN`). -/
def beVal (bs : Bytes) : Nat := bs.foldl (fun a x => a * 256 + x) 0

/-- Big-endian `uint16` at offset `i`. -/
def u16At (b : Bytes) (i : Nat) : Nat := byteAt b i * 256 + byteAt b (i + 1)

/-- Big-endian `uint32` at offset `i`. -/
def u32At (b : Bytes) (i : Nat) : Nat :=
  ((byteAt b i * 256 + byteAt b (i + 1)) * 256 + byteAt b (i + 2)) * 256 + byteAt b (i + 3)

/-- Interpret an unsigned 16-bit value as Go `int16`. -/
def asInt16 (v : Nat) : Int :=
  if v % 65536 < 32768 then ((v % 65536 : Nat) : Int) else ((v % 65536 : Nat) : Int) - 65536

/-- Interpret an unsigned 8-bit value as Go `int8`. -/
def asInt8 (v : Nat) : Int :=
  if v % 256 < 128 then ((v % 256 : Nat) : Int) else ((v % 256 : Nat) : Int) - 256

/-- Reduce an integer to its unsigned 16-bit representative (Go cast to
`uint16`, i.e. arithmetic modulo 65536). -/
def toU16 (v : Int) : Nat := (v % 65536).toNat

/-- Go `int16` addition, which wraps modulo 2^16. -/
def addInt16 (a b : Int) : Int := asInt16 (toU16 (a + b))

/-- Write one byte into a buffer (Go `b[i] = v`); out-of-range writes do
not occur on the paths that use this helper, but leave the buffer
unchanged so the function stays total. -/
def setByte (b : Bytes) (i : Nat) (v : Nat) : Bytes := b.set i v

/-- Go `binary.BigEndian.PutUint32(b[i:], v)`. -/
def putU32At (b : Bytes) (i : Nat) (v : Nat) : Bytes :=
  let v := v % 4294967296
  setByte (setByte (setByte (setByte b i (v / 16777216)) (i + 1) (v / 65536 % 256))
    (i + 2) (v / 256 % 256)) (i + 3) (v % 256)

/-- Modelled from the spec: the repository's cursor reader (the
`binaryReader` helper is not under src/). "Sequential big-endian reader
over a fixed, already-in-memory byte buffer; exposes remaining-length
queries and absolute seek; every multi-byte read is checked against
remaining length before consuming." A read past the remaining length
consumes nothing, sets an EOF flag and yields zero / an empty slice. -/
structure BinaryReader where
  buf : Bytes
  pos : Nat
  eof : Bool
deriving Repr, DecidableEq

namespace BinaryReader

def mk0 (b : Bytes) : BinaryReader := ⟨b, 0, false⟩

/-- Remaining length (Go `r.Len()`). -/
def len (r : BinaryReader) : Nat := r.buf.length - r.pos

/-- Current absolute position (Go `r.Pos()`). -/
def position (r : BinaryReader) : Nat := r.pos

/-- Absolute seek (Go `r.Seek(pos)`). -/
def seek (r : BinaryReader) (p : Nat) : BinaryReader := { r with pos := p }

/-- Go `r.ReadBytes(n)`: returns the next `n` bytes, or an empty slice
(setting EOF, consuming nothing) when fewer than `n` remain. -/
def readBytes (r : BinaryReader) (n : Nat) : Bytes × BinaryReader :=
  if r.eof ∨ r.buf.length - r.pos < n then ([], { r with eof := true })
  else ((r.buf.drop r.pos).take n, { r with pos := r.pos + n })

def readUint8 (r : BinaryReader) : Nat × BinaryReader :=
  let (bs, r') := r.readBytes 1
  (beVal bs, r')

def readUint16 (r : BinaryReader) : Nat × BinaryReader :=
  let (bs, r') := r.readBytes 2
  (beVal bs, r')

def readUint32 (r : BinaryReader) : Nat × BinaryReader :=
  let (bs, r') := r.readBytes 4
  (beVal bs, r')

def readUint64 (r : BinaryReader) : Nat × BinaryReader :=
  let (bs, r') := r.readBytes 8
  (beVal bs, r')

def readInt16 (r : BinaryReader) : Int × BinaryReader :=
  let (v, r') := r.readUint16
  (asInt16 v, r')

def readInt8 (r : BinaryReader) : Int × BinaryReader :=
  let (v, r') := r.readUint8
  (asInt8 v, r')

end BinaryReader

/-- Modelled from the spec: `calcChecksum` is not under src/; the spec
defines the per-table checksum as the "sum of big-endian 32-bit words
over the padded table range" (32-bit wrapping sum). -/
def calcChecksum : Bytes → Nat
  | b0 :: b1 :: b2 :: b3 :: rest =>
      ((((b0 * 256 + b1) * 256 + b2) * 256 + b3) + calcChecksum rest) % 4294967296
  | _ => 0

/-- Panic message used for every Go out-of-range slice index. -/
def idxMsg : String := "runtime error: index out of range"

/-- Panic message for a Go three-index slice expression whose bounds
exceed the slice capacity. -/
def sliceMsg : String := "runtime error: slice bounds out of range"

/-- Panic message for a method call on a nil pointer receiver. -/
def nilMsg : String := "runtime error: invalid memory address or nil pointer dereference"

/-- src/font/sfnt.go line 12. -/
def MaxCmapSegments : Nat := 20000

/-! ## cmap (src/font/sfnt.go lines 193-500) -/

/-- `cmapFormat0` (line 193); the 256-entry `uint8` array becomes a list. -/
structure cmapFormat0 where
  GlyphIdArray : List Nat
deriving Repr, DecidableEq

/-- `cmapFormat0.Get` (line 197). -/
def cmapFormat0.Get (st : cmapFormat0) (r : Int) : GoResult (Nat × Bool) :=
  if r < 0 ∨ 256 ≤ r then .ok (0, false)
  else .ok (st.GlyphIdArray.getD r.toNat 0 % 256, true)

/-- `cmapFormat4` (line 204); `IdDelta` keeps Go's `int16` values as `Int`. -/
structure cmapFormat4 where
  StartCode : List Nat
  EndCode : List Nat
  IdDelta : List Int
  IdRangeOffset : List Nat
  GlyphIdArray : List Nat
deriving Repr, DecidableEq

/-- The `for i` scan of `cmapFormat4.Get` (lines 217-229), walking the
StartCode list with its index, and with Go's slice indexing made
explicit: an index outside the accessed list is a runtime panic. -/
def cmapFormat4.GetLoop (st : cmapFormat4) (rv : Nat) : List Nat → Nat → GoResult (Nat × Bool)
  | [], _ => .ok (0, false)
  | s :: rest, i =>
    if i < st.EndCode.length then
      if rv ≤ st.EndCode.getD i 0 ∧ s ≤ rv then
        if i < st.IdRangeOffset.length then
          if st.IdRangeOffset.getD i 0 = 0 then
            if i < st.IdDelta.length then
              -- is modulo 65536 with the idDelta cast and addition overflow
              .ok ((toU16 (st.IdDelta.getD i 0) + rv) % 65536, true)
            else .panic idxMsg
          else
            -- index := int(idRangeOffset/2) + int(uint16(r)-startCode) - (n - i)
            let index : Int := ((st.IdRangeOffset.getD i 0 / 2 : Nat) : Int) +
              (((rv + 65536 - s % 65536) % 65536 : Nat) : Int) -
              ((st.StartCode.length - i : Nat) : Int)
            if 0 ≤ index ∧ index < (st.GlyphIdArray.length : Int) then
              .ok (st.GlyphIdArray.getD index.toNat 0, true)
            else .panic idxMsg
        else .panic idxMsg
      else cmapFormat4.GetLoop st rv rest (i + 1)
    else .panic idxMsg

/-- `cmapFormat4.Get` (line 212). -/
def cmapFormat4.Get (st : cmapFormat4) (r : Int) : GoResult (Nat × Bool) :=
  if r < 0 ∨ 65536 ≤ r then .ok (0, false)
  else cmapFormat4.GetLoop st r.toNat st.StartCode 0

/-- `cmapFormat6` (line 233). -/
structure cmapFormat6 where
  FirstCode : Nat
  GlyphIdArray : List Nat
deriving Repr, DecidableEq

/-- `cmapFormat6.Get` (line 238). -/
def cmapFormat6.Get (st : cmapFormat6) (r : Int) : GoResult (Nat × Bool) :=
  if r < (st.FirstCode : Int) ∨ (st.GlyphIdArray.length : Int) ≤ r - (st.FirstCode : Int) then
    .ok (0, false)
  else .ok (st.GlyphIdArray.getD (r - (st.FirstCode : Int)).toNat 0, true)

/-- `cmapFormat12` (line 245). -/
structure cmapFormat12 where
  StartCharCode : List Nat
  EndCharCode : List Nat
  StartGlyphID : List Nat
deriving Repr, DecidableEq

/-- The scan of `cmapFormat12.Get` (lines 255-259). -/
def cmapFormat12.GetLoop (ends glyphs : List Nat) (rv : Nat) :
    List Nat → Nat → GoResult (Nat × Bool)
  | [], _ => .ok (0, false)
  | s :: rest, i =>
    if i < ends.length then
      if rv ≤ ends.getD i 0 ∧ s ≤ rv then
        if i < glyphs.length then .ok (((rv - s) + glyphs.getD i 0) % 65536, true)
        else .panic idxMsg
      else cmapFormat12.GetLoop ends glyphs rv rest (i + 1)
    else .panic idxMsg

/-- `cmapFormat12.Get` (line 251). -/
def cmapFormat12.Get (st : cmapFormat12) (r : Int) : GoResult (Nat × Bool) :=
  if r < 0 then .ok (0, false)
  else cmapFormat12.GetLoop st.EndCharCode st.StartGlyphID r.toNat st.StartCharCode 0

/-- `cmapEncodingRecord` (line 263). -/
structure cmapEncodingRecord where
  PlatformID : Nat
  EncodingID : Nat
  Format : Nat
  Subtable : Nat
deriving Repr, DecidableEq

/-- The `cmapSubtable` interface (line 270) as a closed variant. -/
inductive cmapSubtable where
  | format0 (st : cmapFormat0)
  | format4 (st : cmapFormat4)
  | format6 (st : cmapFormat6)
  | format12 (st : cmapFormat12)
deriving Repr, DecidableEq

def cmapSubtable.Get : cmapSubtable → Int → GoResult (Nat × Bool)
  | .format0 st, r => st.Get r
  | .format4 st, r => st.Get r
  | .format6 st, r => st.Get r
  | .format12 st, r => st.Get r

/-- `cmapTable` (line 274). -/
structure cmapTable where
  EncodingRecords : List cmapEncodingRecord
  Subtables : List cmapSubtable
deriving Repr, DecidableEq

/-- The subtable scan of `cmapTable.Get` (lines 280-284). -/
def cmapTable.GetLoop : List cmapSubtable → Int → GoResult Nat
  | [], _ => .ok 0
  | st :: rest, r =>
    match st.Get r with
    | .ok (glyphID, true) => .ok glyphID
    | .ok (_, false) => cmapTable.GetLoop rest r
    | .err m => .err m
    | .panic m => .panic m

/-- `cmapTable.Get` (line 279): first subtable hit, or glyph 0. -/
def cmapTable.Get (t : cmapTable) (r : Int) : GoResult Nat :=
  cmapTable.GetLoop t.Subtables r

/-- Bool test `v ≤ prev` against an optional previous element (Go's
`0 < i && v <= list[i-1]` pattern). -/
def lePrev (prev : Option Nat) (v : Nat) : Bool :=
  match prev with
  | some p => v ≤ p
  | none => false

/-- The endCode loop of `parseCmap` format 4 (lines 393-400). -/
def readEndCodes (j : Nat) : Nat → Option Nat → BinaryReader →
    GoResult (List Nat × BinaryReader)
  | 0, _, r => .ok ([], r)
  | n + 1, prev, r =>
    let (e, r') := r.readUint16
    if lePrev prev e then .err ("cmap: bad endCode in subtable " ++ toString j)
    else
      match readEndCodes j n (some e) r' with
      | .ok (l, r'') => .ok (e :: l, r'')
      | .err m => .err m
      | .panic m => .panic m

/-- The startCode loop of `parseCmap` format 4 (lines 402-409), walking
the already-decoded endCode list. -/
def readStartCodes (j : Nat) : List Nat → Option Nat → BinaryReader →
    GoResult (List Nat × BinaryReader)
  | [], _, r => .ok ([], r)
  | e :: es, prevEnd, r =>
    let (s, r') := r.readUint16
    if e < s ∨ lePrev prevEnd s then .err ("cmap: bad startCode in subtable " ++ toString j)
    else
      match readStartCodes j es (some e) r' with
      | .ok (l, r'') => .ok (s :: l, r'')
      | .err m => .err m
      | .panic m => .panic m

/-- The idDelta loop of `parseCmap` format 4 (lines 410-413). -/
def readInt16List : Nat → BinaryReader → List Int × BinaryReader
  | 0, r => ([], r)
  | n + 1, r =>
    let (v, r') := r.readInt16
    let (l, r'') := readInt16List n r'
    (v :: l, r'')

/-- The idRangeOffset loop of `parseCmap` format 4 (lines 421-433),
walking the zipped (endCode, startCode) list; the decode-time index
check uses the segment's END code only. -/
def readIdRangeOffsets (j segCount gLen : Nat) : List (Nat × Nat) → Nat → BinaryReader →
    GoResult (List Nat × BinaryReader)
  | [], _, r => .ok ([], r)
  | (e, s) :: rest, i, r =>
    let (iro, r') := r.readUint16
    if iro % 2 ≠ 0 then .err ("cmap: bad idRangeOffset in subtable " ++ toString j)
    else
      let index : Int := ((iro / 2 : Nat) : Int) +
        (((e + 65536 - s % 65536) % 65536 : Nat) : Int) - ((segCount - i : Nat) : Int)
      if iro ≠ 0 ∧ (index < 0 ∨ (gLen : Int) ≤ index) then
        .err ("cmap: bad idRangeOffset in subtable " ++ toString j)
      else
        match readIdRangeOffsets j segCount gLen rest (i + 1) r' with
        | .ok (l, r'') => .ok (iro :: l, r'')
        | .err m => .err m
        | .panic m => .panic m

/-- The glyphIdArray loop of `parseCmap` format 4 (lines 434-441):
every array entry is validated against the glyph count. -/
def readGlyphIds (j numGlyphs : Nat) : Nat → BinaryReader →
    GoResult (List Nat × BinaryReader)
  | 0, r => .ok ([], r)
  | n + 1, r =>
    let (g, r') := r.readUint16
    if numGlyphs ≤ g then .err ("cmap: bad glyphID in subtable " ++ toString j)
    else
      match readGlyphIds j numGlyphs n r' with
      | .ok (l, r'') => .ok (g :: l, r'')
      | .err m => .err m
      | .panic m => .panic m

/-- The format-4 branch of `parseCmap` (lines 371-442); `rs` is the
truncated subtable reader, positioned after the format and length
fields. -/
def parseCmapFormat4 (j numGlyphs : Nat) (rs : BinaryReader) : GoResult cmapFormat4 :=
  if rs.len < 10 then .err ("cmap: bad subtable " ++ toString j) else
  let (_, rs) := rs.readUint16  -- languageID
  let (segCountX2, rs) := rs.readUint16
  if segCountX2 % 2 ≠ 0 then .err ("cmap: bad segCount in subtable " ++ toString j) else
  let segCount := segCountX2 / 2
  if MaxCmapSegments < segCount then
    .err ("cmap: too many segments in subtable " ++ toString j) else
  let (_, rs) := rs.readUint16  -- searchRange
  let (_, rs) := rs.readUint16  -- entrySelector
  let (_, rs) := rs.readUint16  -- rangeShift
  if rs.len < 2 + 8 * segCount then .err ("cmap: bad subtable " ++ toString j) else
  match readEndCodes j segCount none rs with
  | .err m => .err m
  | .panic m => .panic m
  | .ok (endCode, rs) =>
    let (_, rs) := rs.readUint16  -- reservedPad
    match readStartCodes j endCode none rs with
    | .err m => .err m
    | .panic m => .panic m
    | .ok (startCode, rs) =>
      let (idDelta, rs) := readInt16List segCount rs
      let glyphIdArrayLen2 := rs.len - 2 * segCount
      if glyphIdArrayLen2 % 2 ≠ 0 then .err ("cmap: bad subtable " ++ toString j) else
      let gLen := glyphIdArrayLen2 / 2
      match readIdRangeOffsets j segCount gLen (endCode.zip startCode) 0 rs with
      | .err m => .err m
      | .panic m => .panic m
      | .ok (idRangeOffset, rs) =>
        match readGlyphIds j numGlyphs gLen rs with
        | .err m => .err m
        | .panic m => .panic m
        | .ok (glyphIdArray, _) =>
          .ok ⟨startCode, endCode, idDelta, idRangeOffset, glyphIdArray⟩

/-- The format-0 branch of `parseCmap` (lines 357-370). -/
def parseCmapFormat0 (j numGlyphs : Nat) (rs : BinaryReader) : GoResult cmapFormat0 :=
  if rs.len ≠ 258 then .err ("cmap: bad subtable " ++ toString j) else
  let (_, rs) := rs.readUint16  -- languageID
  let (glyphIds, _) := rs.readBytes 256
  if glyphIds.any (fun g => decide (numGlyphs ≤ g % 256)) then
    .err ("cmap: bad glyphID in subtable " ++ toString j)
  else .ok ⟨glyphIds⟩

/-- The glyphIdArray loop of `parseCmap` format 6 (lines 455-458). -/
def readUint16List : Nat → BinaryReader → List Nat × BinaryReader
  | 0, r => ([], r)
  | n + 1, r =>
    let (v, r') := r.readUint16
    let (l, r'') := readUint16List n r'
    (v :: l, r'')

/-- The format-6 branch of `parseCmap` (lines 443-459). -/
def parseCmapFormat6 (j : Nat) (rs : BinaryReader) : GoResult cmapFormat6 :=
  if rs.len < 6 then .err ("cmap: bad subtable " ++ toString j) else
  let (_, rs) := rs.readUint16  -- language
  let (firstCode, rs) := rs.readUint16
  let (entryCount, rs) := rs.readUint16
  if rs.len < 2 * entryCount then .err ("cmap: bad subtable " ++ toString j) else
  let (glyphIdArray, _) := readUint16List entryCount rs
  .ok ⟨firstCode, glyphIdArray⟩

/-- The group loop of `parseCmap` format 12 (lines 476-488). -/
def readFormat12Groups (j numGlyphs : Nat) : Nat → Option Nat → BinaryReader →
    GoResult (List (Nat × Nat × Nat) × BinaryReader)
  | 0, _, r => .ok ([], r)
  | n + 1, prevEnd, r =>
    let (startCharCode, r) := r.readUint32
    let (endCharCode, r) := r.readUint32
    let (startGlyphID, r) := r.readUint32
    if endCharCode < startCharCode ∨ lePrev prevEnd startCharCode then
      .err ("cmap: bad character code range in subtable " ++ toString j)
    else if numGlyphs ≤ endCharCode - startCharCode ∨
        numGlyphs - (endCharCode - startCharCode) ≤ startGlyphID then
      .err ("cmap: bad glyphID in subtable " ++ toString j)
    else
      match readFormat12Groups j numGlyphs n (some endCharCode) r with
      | .ok (l, r'') => .ok ((startCharCode, endCharCode, startGlyphID) :: l, r'')
      | .err m => .err m
      | .panic m => .panic m

/-- The format-12 branch of `parseCmap` (lines 460-489). -/
def parseCmapFormat12 (j numGlyphs : Nat) (rs : BinaryReader) : GoResult cmapFormat12 :=
  if rs.len < 8 then .err ("cmap: bad subtable " ++ toString j) else
  let (_, rs) := rs.readUint32  -- language
  let (numGroups, rs) := rs.readUint32
  if MaxCmapSegments < numGroups then
    .err ("cmap: too many segments in subtable " ++ toString j)
  else if rs.len < 12 * numGroups then .err ("cmap: bad subtable " ++ toString j) else
  match readFormat12Groups j numGlyphs numGroups none rs with
  | .err m => .err m
  | .panic m => .panic m
  | .ok (groups, _) =>
    .ok ⟨groups.map (·.1), groups.map (·.2.1), groups.map (·.2.2)⟩

/-- The dedup/overlap scan of `parseCmap` (lines 341-348): an exact
(offset, length) match reuses the existing subtable; an existing start
that falls inside the new range is an error. -/
def findSubtable (j offset length : Nat) : List (Nat × Nat) → Nat → GoResult (Option Nat)
  | [], _ => .ok none
  | (o, l) :: rest, i =>
    if offset = o ∧ length = l then .ok (some i)
    else if offset ≤ o ∧ o < offset + length then .err ("cmap: bad subtable " ++ toString j)
    else findSubtable j offset length rest (i + 1)

/-- The length-extraction switch of `parseCmap` (lines 325-337): read
the subtable's declared length from its format-specific header. -/
def extractSubtableLength (j : Nat) (b : Bytes) (offset : Nat) :
    GoResult (Nat × Nat × BinaryReader) :=
  let rs := BinaryReader.mk0 (b.drop offset)
  let (format, rs) := rs.readUint16
  if format = 0 ∨ format = 2 ∨ format = 4 ∨ format = 6 then
    let (length, rs) := rs.readUint16
    .ok (format, length, rs)
  else if format = 8 ∨ format = 10 ∨ format = 12 ∨ format = 13 then
    let (_, rs) := rs.readUint16  -- reserved
    let (length, rs) := rs.readUint32
    .ok (format, length, rs)
  else if format = 14 then
    let (length, rs) := rs.readUint32
    .ok (format, length, rs)
  else .err ("cmap: bad format " ++ toString format ++ " for subtable " ++ toString j)

/-- One encoding record plus subtable decode of `parseCmap`'s main loop
(lines 309-498); `offsets`/`lengths` carry the ranges admitted so far,
seeded with the record-list header range. -/
def parseCmapRecords (b : Bytes) (numGlyphs : Nat) :
    Nat → Nat → BinaryReader → List Nat → List Nat → cmapTable →
    GoResult (cmapTable × List (Nat × Nat))
  | 0, _, _, offsets, lengths, acc => .ok (acc, offsets.zip lengths)
  | n + 1, j, r, offsets, lengths, acc =>
    let (platformID, r) := r.readUint16
    let (encodingID, r) := r.readUint16
    let (offset, r) := r.readUint32
    if b.length - 8 < offset then .err ("cmap: bad subtable " ++ toString j) else
    if (offsets.zip lengths).any (fun p => decide (p.1 < offset ∧ offset < p.2)) then
      .err ("cmap: bad subtable " ++ toString j) else
    match extractSubtableLength j b offset with
    | .err m => .err m
    | .panic m => .panic m
    | .ok (format, length, rs) =>
      if length < 8 ∨ 4294967295 - offset < length then
        .err ("cmap: bad subtable " ++ toString j) else
      match findSubtable j offset length (offsets.zip lengths) 0 with
      | .err m => .err m
      | .panic m => .panic m
      | .ok found =>
        -- rs.buf = rs.buf[:length:length]: panics when the declared
        -- length exceeds the remaining buffer
        if b.length - offset < length then .panic sliceMsg else
        let rs : BinaryReader := ⟨(b.drop offset).take length, rs.pos, rs.eof⟩
        match found with
        | some subtableID =>
          let rec' : cmapEncodingRecord := ⟨platformID, encodingID, format, subtableID⟩
          parseCmapRecords b numGlyphs n (j + 1) r offsets lengths
            ⟨acc.EncodingRecords ++ [rec'], acc.Subtables⟩
        | none =>
          let subtableID := acc.Subtables.length
          let offsets := offsets ++ [offset]
          let lengths := lengths ++ [length]
          let decoded : GoResult (List cmapSubtable) :=
            if format = 0 then
              match parseCmapFormat0 j numGlyphs rs with
              | .ok st => .ok (acc.Subtables ++ [.format0 st])
              | .err m => .err m
              | .panic m => .panic m
            else if format = 4 then
              match parseCmapFormat4 j numGlyphs rs with
              | .ok st => .ok (acc.Subtables ++ [.format4 st])
              | .err m => .err m
              | .panic m => .panic m
            else if format = 6 then
              match parseCmapFormat6 j rs with
              | .ok st => .ok (acc.Subtables ++ [.format6 st])
              | .err m => .err m
              | .panic m => .panic m
            else if format = 12 then
              match parseCmapFormat12 j numGlyphs rs with
              | .ok st => .ok (acc.Subtables ++ [.format12 st])
              | .err m => .err m
              | .panic m => .panic m
            else .ok acc.Subtables
          match decoded with
          | .err m => .err m
          | .panic m => .panic m
          | .ok subtables =>
            let rec' : cmapEncodingRecord := ⟨platformID, encodingID, format, subtableID⟩
            parseCmapRecords b numGlyphs n (j + 1) r offsets lengths
              ⟨acc.EncodingRecords ++ [rec'], subtables⟩

/-- `SFNT.parseCmap` (lines 288-500); following the spec's staged
design, the glyph count decoded from `maxp` is passed in explicitly.
Returns the decoded table together with the admitted (offset, length)
ranges so the overlap invariant can be stated. -/
def parseCmap (b : Bytes) (numGlyphs : Nat) : GoResult (cmapTable × List (Nat × Nat)) :=
  if b.length < 4 then .err "cmap: bad table" else
  let r := BinaryReader.mk0 b
  let (version, r) := r.readUint16
  if version ≠ 0 then .err "cmap: bad version" else
  let (numTables, r) := r.readUint16
  if b.length < 4 + 8 * numTables then .err "cmap: bad table" else
  parseCmapRecords b numGlyphs numTables 0 r [0] [4 + 8 * numTables] ⟨[], []⟩

/-! ## glyf / loca (src/font/sfnt.go lines 504-764, 1042-1077) -/

/-- `locaTable` (line 1042). -/
structure locaTable where
  Offsets : List Nat
deriving Repr, DecidableEq

/-- `glyfContour` (line 504); 16-bit coordinates become `Int` values in
[-32768, 32767]. -/
structure glyfContour where
  GlyphID : Nat
  XMin : Int
  YMin : Int
  XMax : Int
  YMax : Int
  EndPoints : List Nat
  Instructions : Bytes
  OnCurve : List Bool
  XCoordinates : List Int
  YCoordinates : List Int
deriving Repr, DecidableEq

/-- `glyfTable` (line 550). -/
structure glyfTable where
  data : Bytes
  loca : locaTable
deriving Repr, DecidableEq

/-- `glyfTable.Get` (line 555): `none` is Go's nil slice for an
out-of-range glyph ID; a loca range that is not contained in the glyf
data is a slice-bounds panic. -/
def glyfTable.Get (glyf : glyfTable) (glyphID : Nat) : GoResult (Option Bytes) :=
  if glyf.loca.Offsets.length ≤ glyphID + 1 then .ok none
  else
    let s := glyf.loca.Offsets.getD glyphID 0
    let e := glyf.loca.Offsets.getD (glyphID + 1) 0
    if s ≤ e ∧ e ≤ glyf.data.length then .ok (some ((glyf.data.take e).drop s))
    else .panic sliceMsg

/-- The per-point flags loop of a simple glyph (lines 602-617).
Positions are written left to right, so the flag array under
construction is the accumulator; expanding a REPEAT_FLAG run past
`numPoints` writes outside the flags slice, a runtime panic. The fuel
decreases once per iteration while the accumulator grows by at least
one, so seeding it at `numPoints` makes the fuel-0 exit coincide with
the loop's own `i < numPoints` exit. -/
def flagsLoop (glyphID numPoints : Nat) : Nat → List Nat → BinaryReader →
    GoResult (List Nat × BinaryReader)
  | 0, acc, r => .ok (acc, r)
  | fuel + 1, acc, r =>
    if acc.length < numPoints then
      if r.len < 1 then .err ("glyf: bad table for glyphID " ++ toString glyphID)
      else
        let (f, r) := r.readUint8
        if f &&& 8 ≠ 0 then  -- REPEAT_FLAG
          let (rep, r) := r.readUint8
          if rep ≠ 0 ∧ numPoints ≤ acc.length + rep then .panic idxMsg
          else flagsLoop glyphID numPoints fuel (acc ++ List.replicate (rep + 1) f) r
        else flagsLoop glyphID numPoints fuel (acc ++ [f]) r
    else .ok (acc, r)

/-- One delta-decoded coordinate loop of a simple glyph (lines 619-640
for x with bits 0x02/0x10, lines 642-663 for y with bits 0x04/0x20). -/
def coordLoop (glyphID shortBit sameBit : Nat) :
    List Nat → Int → BinaryReader → GoResult (List Int × BinaryReader)
  | [], _, r => .ok ([], r)
  | f :: rest, x, r =>
    if f &&& shortBit ≠ 0 then
      if r.len < 1 then .err ("glyf: bad table or flags for glyphID " ++ toString glyphID)
      else
        let (d, r) := r.readUint8
        let x' := if f &&& sameBit ≠ 0 then addInt16 x (d : Int) else addInt16 x (-(d : Int))
        match coordLoop glyphID shortBit sameBit rest x' r with
        | .ok (l, r'') => .ok (x' :: l, r'')
        | .err m => .err m
        | .panic m => .panic m
    else if f &&& sameBit = 0 then
      if r.len < 2 then .err ("glyf: bad table or flags for glyphID " ++ toString glyphID)
      else
        let (d, r) := r.readInt16
        let x' := addInt16 x d
        match coordLoop glyphID shortBit sameBit rest x' r with
        | .ok (l, r'') => .ok (x' :: l, r'')
        | .err m => .err m
        | .panic m => .panic m
    else
      match coordLoop glyphID shortBit sameBit rest x r with
      | .ok (l, r'') => .ok (x :: l, r'')
      | .err m => .err m
      | .panic m => .panic m

/-- The simple-glyph branch of `glyfTable.Contour` (lines 583-663),
after the 10-byte header has been consumed. -/
def simpleGlyphBody (glyphID noc : Nat) (xMin yMin xMax yMax : Int) (r : BinaryReader) :
    GoResult (Option glyfContour) :=
  if r.len < 2 * noc + 2 then .err ("glyf: bad table for glyphID " ++ toString glyphID) else
  let (endPoints, r) := readUint16List noc r
  let (instructionLength, r) := r.readUint16
  if r.len < instructionLength then .err ("glyf: bad table for glyphID " ++ toString glyphID) else
  let (instructions, r) := r.readBytes instructionLength
  -- numPoints := int(contour.EndPoints[numberOfContours-1]) + 1 panics
  -- on an empty end-point array
  if noc = 0 then .panic idxMsg else
  let numPoints := endPoints.getD (noc - 1) 0 + 1
  match flagsLoop glyphID numPoints numPoints [] r with
  | .err m => .err m
  | .panic m => .panic m
  | .ok (flags, r) =>
    match coordLoop glyphID 2 16 flags 0 r with
    | .err m => .err m
    | .panic m => .panic m
    | .ok (xs, r) =>
      match coordLoop glyphID 4 32 flags 0 r with
      | .err m => .err m
      | .panic m => .panic m
      | .ok (ys, _) =>
        .ok (some ⟨glyphID, xMin, yMin, xMax, yMax, endPoints, instructions,
          flags.map (fun f => f &&& 1 != 0), xs, ys⟩)

/-- Go's 2.14 fixed-point multiply with rounding (lines 735-736):
`int16((int64(a)*int64(b)+half)>>14)` with `half = 1<<13`. -/
def fix214mul (a b : Int) : Int := asInt16 (toU16 (Int.fdiv (a * b + 8192) 16384))

/-- Component translation arguments (lines 680-693). -/
def readCompArgs (glyphID flags : Nat) (r : BinaryReader) :
    GoResult (Int × Int × BinaryReader) :=
  if flags &&& 1 ≠ 0 then  -- ARG_1_AND_2_ARE_WORDS
    if r.len < 4 then .err ("glyf: bad table for glyphID " ++ toString glyphID)
    else
      let (dx, r) := r.readInt16
      let (dy, r) := r.readInt16
      .ok (dx, dy, r)
  else
    if r.len < 2 then .err ("glyf: bad table for glyphID " ++ toString glyphID)
    else
      let (dx, r) := r.readInt8
      let (dy, r) := r.readInt8
      .ok (dx, dy, r)

/-- Component transform payload (lines 694-715): identity, uniform
scale, x/y scale, or full 2-by-2 matrix. -/
def readCompTransform (glyphID flags : Nat) (r : BinaryReader) :
    GoResult (Int × Int × Int × Int × BinaryReader) :=
  if flags &&& 8 ≠ 0 then  -- WE_HAVE_A_SCALE
    if r.len < 2 then .err ("glyf: bad table for glyphID " ++ toString glyphID)
    else
      let (txx, r) := r.readInt16
      .ok (txx, 0, 0, txx, r)
  else if flags &&& 64 ≠ 0 then  -- WE_HAVE_AN_X_AND_Y_SCALE
    if r.len < 4 then .err ("glyf: bad table for glyphID " ++ toString glyphID)
    else
      let (txx, r) := r.readInt16
      let (tyy, r) := r.readInt16
      .ok (txx, 0, 0, tyy, r)
  else if flags &&& 128 ≠ 0 then  -- WE_HAVE_A_TWO_BY_TWO
    if r.len < 8 then .err ("glyf: bad table for glyphID " ++ toString glyphID)
    else
      let (txx, r) := r.readInt16
      let (txy, r) := r.readInt16
      let (tyx, r) := r.readInt16
      let (tyy, r) := r.readInt16
      .ok (txx, txy, tyx, tyy, r)
  else .ok (0, 0, 0, 0, r)

/-- The component loop of a composite glyph (lines 670-745).
`subResolve` resolves a component's contour (the recursive call at the
next nesting level); the fuel is seeded above the maximal number of
iterations (each iteration consumes at least four bytes), so the
exhaustion branch is unreachable. -/
def compositeLoop (glyphID : Nat) (subResolve : Nat → GoResult (Option glyfContour)) :
    Nat → glyfContour → BinaryReader → GoResult (Option glyfContour)
  | 0, _, _ => .err "glyf: internal"
  | fuel + 1, contour, r =>
    if r.len < 4 then .err ("glyf: bad table for glyphID " ++ toString glyphID) else
    let (flags, r) := r.readUint16
    let (subGlyphID, r) := r.readUint16
    if flags &&& 2 = 0 then .err "glyf: composite glyph not supported" else
    match readCompArgs glyphID flags r with
    | .err m => .err m
    | .panic m => .panic m
    | .ok (dx, dy, r) =>
      match readCompTransform glyphID flags r with
      | .err m => .err m
      | .panic m => .panic m
      | .ok (txx, txy, tyx, tyy, r) =>
        match subResolve subGlyphID with
        | .err m => .err m
        | .panic m => .panic m
        -- a component resolving to the empty outline is a nil
        -- *glyfContour whose fields are then dereferenced
        | .ok none => .panic nilMsg
        | .ok (some subContour) =>
          let numPoints : Nat :=
            if contour.EndPoints.length ≠ 0 then
              (contour.EndPoints.getD (contour.EndPoints.length - 1) 0 + 1) % 65536
            else 0
          if subContour.YCoordinates.length < subContour.XCoordinates.length then
            .panic idxMsg
          else
            let pts := subContour.XCoordinates.zip subContour.YCoordinates
            let moved := pts.map (fun p =>
              let q := if flags &&& 200 ≠ 0 then  -- 0x00C8: has transformation
                  (addInt16 (fix214mul p.1 txx) (fix214mul p.2 tyx),
                   addInt16 (fix214mul p.1 txy) (fix214mul p.2 tyy))
                else p
              (addInt16 dx q.1, addInt16 dy q.2))
            let contour : glyfContour := { contour with
              EndPoints := contour.EndPoints ++
                subContour.EndPoints.map (fun e => (numPoints + e) % 65536),
              OnCurve := contour.OnCurve ++ subContour.OnCurve,
              XCoordinates := contour.XCoordinates ++ moved.map (·.1),
              YCoordinates := contour.YCoordinates ++ moved.map (·.2) }
            if flags &&& 32 = 0 then .ok (some contour)  -- MORE_COMPONENTS clear
            else compositeLoop glyphID subResolve fuel contour r

/-- `glyfTable.Contour` (lines 564-748), staged on a depth gas. The gas
only bounds the composite recursion that Go bounds through the `level`
check (`7 < level` is a decode error before any recursive call), so
seeding it at 9 covers every reachable chain and the gas-0 branch is
unreachable. -/
def glyfTable.ContourAux (glyf : glyfTable) : Nat → Nat → Nat → GoResult (Option glyfContour)
  | 0, _, _ => .err "glyf: internal"
  | gas + 1, glyphID, level =>
    match glyf.Get glyphID with
    | .err m => .err m
    | .panic m => .panic m
    | .ok none => .err ("glyf: bad glyphID " ++ toString glyphID)
    | .ok (some b) =>
      if b.length = 0 then .ok none else
      let r := BinaryReader.mk0 b
      if r.len < 10 then .err ("glyf: bad table for glyphID " ++ toString glyphID) else
      let (numberOfContours, r) := r.readInt16
      let (xMin, r) := r.readInt16
      let (yMin, r) := r.readInt16
      let (xMax, r) := r.readInt16
      let (yMax, r) := r.readInt16
      if 0 ≤ numberOfContours then
        simpleGlyphBody glyphID numberOfContours.toNat xMin yMin xMax yMax r
      else if 7 < level then .err "glyf: compound glyphs too deeply nested"
      else
        let contour0 : glyfContour := ⟨glyphID, xMin, yMin, xMax, yMax, [], [], [], [], []⟩
        compositeLoop glyphID (fun g => glyf.ContourAux gas g (level + 1)) (r.len + 1)
          contour0 r

/-- `glyfTable.Contour` (line 564). -/
def glyfTable.Contour (glyf : glyfTable) (glyphID level : Nat) : GoResult (Option glyfContour) :=
  glyf.ContourAux 9 glyphID level

/-! ## head, maxp, hhea, hmtx (src/font/sfnt.go lines 768-930, 1081-1127) -/

/-- Modelled from the spec: `uint16ToFlags` is not under src/; it
unpacks a 16-bit field into its bits. -/
def uint16ToFlags (v : Nat) : List Bool := (List.range 16).map (fun i => (v >>> i) &&& 1 != 0)

/-- Modelled from the spec: `uint8ToFlags` is not under src/; it
unpacks an 8-bit field (the kern coverage byte) into its bits. -/
def uint8ToFlags (v : Nat) : List Bool := (List.range 8).map (fun i => (v >>> i) &&& 1 != 0)

/-- `headTable` (line 768); `Created`/`Modified` keep the raw seconds
since 1904-01-01 instead of Go's `time.Time`. -/
structure headTable where
  FontRevision : Nat
  Flags : List Bool
  UnitsPerEm : Nat
  Created : Nat
  Modified : Nat
  XMin : Int
  YMin : Int
  XMax : Int
  YMax : Int
  MacStyle : List Bool
  LowestRecPPEM : Nat
  FontDirectionHint : Int
  IndexToLocFormat : Int
  GlyphDataFormat : Int
deriving Repr, DecidableEq

/-- `SFNT.parseHead` (line 781). -/
def parseHead (b : Bytes) : GoResult headTable :=
  if b.length ≠ 54 then .err "head: bad table" else
  let r := BinaryReader.mk0 b
  let (majorVersion, r) := r.readUint16
  let (minorVersion, r) := r.readUint16
  if majorVersion ≠ 1 ∧ minorVersion ≠ 0 then .err "head: bad version" else
  let (fontRevision, r) := r.readUint32
  let (_, r) := r.readUint32  -- checksumAdjustment
  let (magic, r) := r.readUint32
  if magic ≠ 0x5F0F3CF5 then .err "head: bad magic version" else
  let (flagsV, r) := r.readUint16
  let (unitsPerEm, r) := r.readUint16
  let (created, r) := r.readUint64
  let (modified, r) := r.readUint64
  if 9223372036854775807 < created ∨ 9223372036854775807 < modified then
    .err "head: created and/or modified dates too large" else
  let (xMin, r) := r.readInt16
  let (yMin, r) := r.readInt16
  let (xMax, r) := r.readInt16
  let (yMax, r) := r.readInt16
  let (macStyle, r) := r.readUint16
  let (lowestRecPPEM, r) := r.readUint16
  let (fontDirectionHint, r) := r.readInt16
  let (indexToLocFormat, r) := r.readInt16
  if indexToLocFormat ≠ 0 ∧ indexToLocFormat ≠ 1 then .err "head: bad indexToLocFormat" else
  let (glyphDataFormat, _) := r.readInt16
  .ok ⟨fontRevision, uint16ToFlags flagsV, unitsPerEm, created, modified,
    xMin, yMin, xMax, yMax, uint16ToFlags macStyle, lowestRecPPEM,
    fontDirectionHint, indexToLocFormat, glyphDataFormat⟩

/-- `maxpTable` (line 1081). -/
structure maxpTable where
  NumGlyphs : Nat
  MaxPoints : Nat
  MaxContours : Nat
  MaxCompositePoints : Nat
  MaxCompositeContours : Nat
  MaxZones : Nat
  MaxTwilightPoints : Nat
  MaxStorage : Nat
  MaxFunctionDefs : Nat
  MaxInstructionDefs : Nat
  MaxStackElements : Nat
  MaxSizeOfInstructions : Nat
  MaxComponentElements : Nat
  MaxComponentDepth : Nat
deriving Repr, DecidableEq

/-- `SFNT.parseMaxp` (line 1098). `binary.BigEndian.Uint32` on the nil
slice returned for a short table is a runtime panic. -/
def parseMaxp (b : Bytes) (isTrueType isCFF : Bool) : GoResult maxpTable :=
  let r := BinaryReader.mk0 b
  let (version, r) := r.readBytes 4
  let (numGlyphs, r) := r.readUint16
  if version.length < 4 then .panic idxMsg else
  if beVal version = 0x00005000 ∧ ¬isTrueType ∧ b.length = 6 then
    .ok ⟨numGlyphs, 0, 0, 0, 0, 0, 0, 0, 0, 0, 0, 0, 0, 0⟩
  else if beVal version = 0x00010000 ∧ ¬isCFF ∧ b.length = 32 then
    let (maxPoints, r) := r.readUint16
    let (maxContours, r) := r.readUint16
    let (maxCompositePoints, r) := r.readUint16
    let (maxCompositeContours, r) := r.readUint16
    let (maxZones, r) := r.readUint16
    let (maxTwilightPoints, r) := r.readUint16
    let (maxStorage, r) := r.readUint16
    let (maxFunctionDefs, r) := r.readUint16
    let (maxInstructionDefs, r) := r.readUint16
    let (maxStackElements, r) := r.readUint16
    let (maxSizeOfInstructions, r) := r.readUint16
    let (maxComponentElements, r) := r.readUint16
    let (maxComponentDepth, _) := r.readUint16
    .ok ⟨numGlyphs, maxPoints, maxContours, maxCompositePoints, maxCompositeContours,
      maxZones, maxTwilightPoints, maxStorage, maxFunctionDefs, maxInstructionDefs,
      maxStackElements, maxSizeOfInstructions, maxComponentElements, maxComponentDepth⟩
  else .err "maxp: bad table"

/-- `hheaTable` (line 827). -/
structure hheaTable where
  Ascender : Int
  Descender : Int
  LineGap : Int
  AdvanceWidthMax : Nat
  MinLeftSideBearing : Int
  MinRightSideBearing : Int
  XMaxExtent : Int
  CaretSlopeRise : Int
  CaretSlopeRun : Int
  CaretOffset : Int
  MetricDataFormat : Int
  NumberOfHMetrics : Nat
deriving Repr, DecidableEq

/-- `SFNT.parseHhea` (line 842); needs `maxp`'s glyph count. -/
def parseHhea (b : Bytes) (numGlyphs : Nat) : GoResult hheaTable :=
  if b.length ≠ 36 then .err "hhea: bad table" else
  let r := BinaryReader.mk0 b
  let (majorVersion, r) := r.readUint16
  let (minorVersion, r) := r.readUint16
  if majorVersion ≠ 1 ∧ minorVersion ≠ 0 then .err "hhea: bad version" else
  let (ascender, r) := r.readInt16
  let (descender, r) := r.readInt16
  let (lineGap, r) := r.readInt16
  let (advanceWidthMax, r) := r.readUint16
  let (minLeftSideBearing, r) := r.readInt16
  let (minRightSideBearing, r) := r.readInt16
  let (xMaxExtent, r) := r.readInt16
  let (caretSlopeRise, r) := r.readInt16
  let (caretSlopeRun, r) := r.readInt16
  let (caretOffset, r) := r.readInt16
  let (_, r) := r.readInt16  -- reserved
  let (_, r) := r.readInt16  -- reserved
  let (_, r) := r.readInt16  -- reserved
  let (_, r) := r.readInt16  -- reserved
  let (metricDataFormat, r) := r.readInt16
  let (numberOfHMetrics, _) := r.readUint16
  if numGlyphs < numberOfHMetrics ∨ numberOfHMetrics = 0 then
    .err "hhea: bad numberOfHMetrics"
  else
    .ok ⟨ascender, descender, lineGap, advanceWidthMax, minLeftSideBearing,
      minRightSideBearing, xMaxExtent, caretSlopeRise, caretSlopeRun, caretOffset,
      metricDataFormat, numberOfHMetrics⟩

/-- `hmtxLongHorMetric` (line 882). -/
structure hmtxLongHorMetric where
  AdvanceWidth : Nat
  Lsb : Int
deriving Repr, DecidableEq

/-- `hmtxTable` (line 887). -/
structure hmtxTable where
  HMetrics : List hmtxLongHorMetric
  LeftSideBearings : List Int
deriving Repr, DecidableEq

/-- `hmtxTable.LeftSideBearing` (line 892). -/
def hmtxTable.LeftSideBearing (hmtx : hmtxTable) (glyphID : Nat) : GoResult Int :=
  if hmtx.HMetrics.length ≤ glyphID then
    if glyphID - hmtx.HMetrics.length < hmtx.LeftSideBearings.length then
      .ok (hmtx.LeftSideBearings.getD (glyphID - hmtx.HMetrics.length) 0)
    else .panic idxMsg
  else .ok (hmtx.HMetrics.getD glyphID ⟨0, 0⟩).Lsb

/-- `hmtxTable.Advance` (line 899): glyph IDs past the metrics sequence
inherit the last entry's advance width; an empty metrics list makes the
clamped index wrap and the array access panic. -/
def hmtxTable.Advance (hmtx : hmtxTable) (glyphID : Nat) : GoResult Nat :=
  let glyphID := if hmtx.HMetrics.length ≤ glyphID then
    (hmtx.HMetrics.length + 65535) % 65536 else glyphID
  if glyphID < hmtx.HMetrics.length then
    .ok (hmtx.HMetrics.getD glyphID ⟨0, 0⟩).AdvanceWidth
  else .panic idxMsg

/-- The long-metrics loop of `parseHmtx` (lines 922-925). -/
def readHMetrics : Nat → BinaryReader → List hmtxLongHorMetric × BinaryReader
  | 0, r => ([], r)
  | n + 1, r =>
    let (aw, r) := r.readUint16
    let (lsb, r) := r.readInt16
    let (l, r') := readHMetrics n r
    (⟨aw, lsb⟩ :: l, r')

/-- `SFNT.parseHmtx` (line 906); needs `hhea`'s metrics count and
`maxp`'s glyph count. -/
def parseHmtx (b : Bytes) (numberOfHMetrics numGlyphs : Nat) : GoResult hmtxTable :=
  if b.length ≠ 4 * numberOfHMetrics + 2 * (numGlyphs - numberOfHMetrics) then
    .err "hmtx: bad table"
  else
    let r := BinaryReader.mk0 b
    let (hMetrics, r) := readHMetrics numberOfHMetrics r
    let (lsbs, _) := readInt16List (numGlyphs - numberOfHMetrics) r
    .ok ⟨hMetrics, lsbs⟩

/-! ## kern (src/font/sfnt.go lines 934-1038) -/

/-- `kernPair` (line 934). -/
structure kernPair where
  Key : Nat
  Value : Int
deriving Repr, DecidableEq

/-- `kernFormat0` (line 939). -/
structure kernFormat0 where
  Coverage : List Bool
  Pairs : List kernPair
deriving Repr, DecidableEq

/-- The binary search of `kernFormat0.Get` (lines 946-957). The window
`hi - lo` shrinks every iteration, so a fuel above the initial window
size makes the fuel-0 exit unreachable; it returns the same 0 as the
`lo < hi` exit. -/
def kernFormat0.GetLoop (pairs : List kernPair) (key : Nat) : Nat → Nat → Nat → Int
  | 0, _, _ => 0
  | fuel + 1, lo, hi =>
    if lo < hi then
      let mid := (lo + hi) / 2  -- can be rounded down if odd
      let pair := pairs.getD mid ⟨0, 0⟩
      if pair.Key < key then kernFormat0.GetLoop pairs key fuel (mid + 1) hi
      else if key < pair.Key then kernFormat0.GetLoop pairs key fuel lo mid
      else pair.Value
    else 0

/-- `kernFormat0.Get` (line 944). -/
def kernFormat0.Get (st : kernFormat0) (l r : Nat) : Int :=
  let key := (l % 65536) * 65536 + r % 65536
  kernFormat0.GetLoop st.Pairs key (st.Pairs.length + 1) 0 st.Pairs.length

/-- `kernTable` (line 961). -/
structure kernTable where
  Subtables : List kernFormat0
deriving Repr, DecidableEq

/-- The subtable fold of `kernTable.Get` (lines 966-973): sum by
default (with Go's wrapping `int16` addition), minimum-override when
coverage bit 1 is set. -/
def kernTable.GetLoop : List kernFormat0 → Nat → Nat → Int → Int
  | [], _, _, k => k
  | st :: rest, l, r, k =>
    if ¬ (st.Coverage.getD 1 false) then
      kernTable.GetLoop rest l r (addInt16 k (st.Get l r))
    else
      let min := st.Get l r
      if k < min then kernTable.GetLoop rest l r min
      else kernTable.GetLoop rest l r k

/-- `kernTable.Get` (line 965). -/
def kernTable.Get (kern : kernTable) (l r : Nat) : Int :=
  kernTable.GetLoop kern.Subtables l r 0

/-- The sorted-pair loop of `parseKern` (lines 1024-1031). -/
def readKernPairs (j : Nat) : Nat → Option Nat → BinaryReader →
    GoResult (List kernPair × BinaryReader)
  | 0, _, r => .ok ([], r)
  | n + 1, prev, r =>
    let (key, r) := r.readUint32
    let (value, r) := r.readInt16
    if lePrev prev key then .err ("kern: bad left right pair for subtable " ++ toString j)
    else
      match readKernPairs j n (some key) r with
      | .ok (l, r'') => .ok (⟨key, value⟩ :: l, r'')
      | .err m => .err m
      | .panic m => .panic m

/-- The subtable loop of `parseKern` (lines 994-1036); unsupported
subtable versions and formats are skipped, not fatal. -/
def parseKernTables : Nat → Nat → BinaryReader → List kernFormat0 →
    GoResult (List kernFormat0)
  | 0, _, _, acc => .ok acc
  | n + 1, j, r, acc =>
    if r.len < 6 then .err ("kern: bad subtable " ++ toString j) else
    let startPos := r.position
    let (subtableVersion, r) := r.readUint16
    if subtableVersion ≠ 0 then parseKernTables n (j + 1) r acc else
    let (length, r) := r.readUint16
    let (format, r) := r.readUint8
    let (coverageV, r) := r.readUint8
    if format ≠ 0 then parseKernTables n (j + 1) r acc else
    if r.len < 8 then .err ("kern: bad subtable " ++ toString j) else
    let (nPairs, r) := r.readUint16
    let (_, r) := r.readUint16  -- searchRange
    let (_, r) := r.readUint16  -- entrySelector
    let (_, r) := r.readUint16  -- rangeShift
    if length < 14 + 6 * nPairs then .err ("kern: bad length for subtable " ++ toString j) else
    match readKernPairs j nPairs none r with
    | .err m => .err m
    | .panic m => .panic m
    | .ok (pairs, r) =>
      -- read unread bytes if length is bigger
      let (_, r) := r.readBytes (length - (r.position - startPos))
      parseKernTables n (j + 1) r (acc ++ [⟨uint8ToFlags coverageV, pairs⟩])

/-- `SFNT.parseKern` (line 977). -/
def parseKern (b : Bytes) : GoResult kernTable :=
  if b.length < 4 then .err "kern: bad table" else
  let r := BinaryReader.mk0 b
  let (version, r) := r.readUint16
  if version ≠ 0 then .err "kern: bad version" else
  let (nTables, r) := r.readUint16
  match parseKernTables nTables 0 r [] with
  | .ok subs => .ok ⟨subs⟩
  | .err m => .err m
  | .panic m => .panic m

/-! ## loca and glyf table parsing (src/font/sfnt.go lines 750-764, 1046-1077) -/

/-- The offset loop of `parseLoca` (lines 1059-1064 and 1069-1074);
`wide` selects the 32-bit flavor. -/
def readLocaOffsets (wide : Bool) : Nat → Option Nat → BinaryReader → GoResult (List Nat)
  | 0, _, _ => .ok []
  | n + 1, prev, r =>
    let (v, r') := if wide then r.readUint32 else r.readUint16
    if (match prev with | some p => decide (v < p) | none => false) then .err "loca: bad offsets"
    else
      match readLocaOffsets wide n (some v) r' with
      | .ok l => .ok (v :: l)
      | .err m => .err m
      | .panic m => .panic m

/-- `SFNT.parseLoca` (line 1046); needs `maxp`'s glyph count and
`head`'s location-index format. Go computes the entry count with a
wrapping `uint16` increment. -/
def parseLoca (b : Bytes) (numGlyphs : Nat) (indexToLocFormat : Int) : GoResult locaTable :=
  let count := (numGlyphs + 1) % 65536
  if indexToLocFormat = 0 then
    if b.length ≠ 2 * (numGlyphs + 1) then .err "loca: bad table" else
    match readLocaOffsets false count none (BinaryReader.mk0 b) with
    | .ok offs => .ok ⟨offs⟩
    | .err m => .err m
    | .panic m => .panic m
  else if indexToLocFormat = 1 then
    if b.length ≠ 4 * (numGlyphs + 1) then .err "loca: bad table" else
    match readLocaOffsets true count none (BinaryReader.mk0 b) with
    | .ok offs => .ok ⟨offs⟩
    | .err m => .err m
    | .panic m => .panic m
  else .ok ⟨List.replicate count 0⟩

/-- `SFNT.parseGlyf` (line 750); needs the decoded `loca` table. The
final loca offset must equal the glyf table length. -/
def parseGlyf (b : Bytes) (loca : locaTable) : GoResult glyfTable :=
  if loca.Offsets.length = 0 then .panic idxMsg else
  if b.length ≠ loca.Offsets.getD (loca.Offsets.length - 1) 0 then .err "glyf: bad table"
  else .ok ⟨b, loca⟩

/-! ## name, OS/2, post (src/font/sfnt.go lines 1131-1411) -/

/-- `nameNameRecord` (line 1131). -/
structure nameNameRecord where
  PlatformID : Nat
  EncodingID : Nat
  LanguageID : Nat
  NameID : Nat
  Offset : Nat
  Length : Nat
deriving Repr, DecidableEq

/-- `nameLangTagRecord` (line 1140). -/
structure nameLangTagRecord where
  Offset : Nat
  Length : Nat
deriving Repr, DecidableEq

/-- `nameTable` (line 1145). -/
structure nameTable where
  NameRecord : List nameNameRecord
  LangTagRecord : List nameLangTagRecord
  Data : Bytes
deriving Repr, DecidableEq

/-- The record loop of `parseName` (lines 1171-1178); note the source
reads `Length` before `Offset`. -/
def readNameRecords : Nat → BinaryReader → List nameNameRecord × BinaryReader
  | 0, r => ([], r)
  | n + 1, r =>
    let (platformID, r) := r.readUint16
    let (encodingID, r) := r.readUint16
    let (languageID, r) := r.readUint16
    let (nameID, r) := r.readUint16
    let (length, r) := r.readUint16
    let (offset, r) := r.readUint16
    let (l, r') := readNameRecords n r
    (⟨platformID, encodingID, languageID, nameID, offset, length⟩ :: l, r')

/-- `SFNT.parseName` (line 1151). The version-1 language-tag loop
assigns into the never-allocated `LangTagRecord` slice, so any nonzero
language-tag count is a runtime panic. -/
def parseName (b : Bytes) : GoResult nameTable :=
  if b.length < 6 then .err "name: bad table" else
  let r := BinaryReader.mk0 b
  let (version, r) := r.readUint16
  if version ≠ 0 ∧ version ≠ 1 then .err "name: bad version" else
  let (count, r) := r.readUint16
  let (_, r) := r.readUint16  -- storageOffset
  if b.length < 6 + 12 * count then .err "name: bad table" else
  let (records, r) := readNameRecords count r
  if version = 1 then
    if b.length < 6 + 12 * count + 2 then .err "name: bad table" else
    let (langTagCount, r) := r.readUint16
    if b.length < 6 + 12 * count + 2 + 4 * langTagCount then .err "name: bad table" else
    if langTagCount ≠ 0 then .panic idxMsg else
    .ok ⟨records, [], b.drop r.position⟩
  else .ok ⟨records, [], b.drop r.position⟩

/-- `os2Table` (line 1198). -/
structure os2Table where
  XAvgCharWidth : Int
  UsWeightClass : Nat
  UsWidthClass : Nat
  FsType : Nat
  YSubscriptXSize : Int
  YSubscriptYSize : Int
  YSubscriptXOffset : Int
  YSubscriptYOffset : Int
  YSuperscriptXSize : Int
  YSuperscriptYSize : Int
  YSuperscriptXOffset : Int
  YSuperscriptYOffset : Int
  YStrikeoutSize : Int
  YStrikeoutPosition : Int
  SFamilyClass : Int
  BFamilyType : Nat
  BSerifStyle : Nat
  BWeight : Nat
  BProportion : Nat
  BContrast : Nat
  BStrokeVariation : Nat
  BArmStyle : Nat
  BLetterform : Nat
  BMidline : Nat
  BXHeight : Nat
  UlUnicodeRange1 : Nat
  UlUnicodeRange2 : Nat
  UlUnicodeRange3 : Nat
  UlUnicodeRange4 : Nat
  AchVendID : Bytes
  FsSelection : Nat
  UsFirstCharIndex : Nat
  UsLastCharIndex : Nat
  STypoAscender : Int
  STypoDescender : Int
  STypoLineGap : Int
  UsWinAscent : Nat
  UsWinDescent : Nat
  UlCodePageRange1 : Nat
  UlCodePageRange2 : Nat
  SxHeight : Int
  SCapHeight : Int
  UsDefaultChar : Nat
  UsBreakChar : Nat
  UsMaxContent : Nat
  UsLowerOpticalPointSize : Nat
  UsUpperOpticalPointSize : Nat
deriving Repr, DecidableEq

/-- `SFNT.parseOS2` (line 1248): version-gated layout with trailing
sections selected by the declared table length. -/
def parseOS2 (b : Bytes) : GoResult os2Table :=
  if b.length < 68 then .err "OS/2: bad table" else
  let r := BinaryReader.mk0 b
  let (version, r) := r.readUint16
  if 5 < version then .err "OS/2: bad version" else
  if (version = 0 ∧ b.length ≠ 68 ∧ b.length ≠ 78) ∨
      (version = 1 ∧ b.length ≠ 86) ∨
      (2 ≤ version ∧ version ≤ 4 ∧ b.length ≠ 96) ∨
      (version = 5 ∧ b.length ≠ 100) then .err "OS/2: bad table" else
  let (xAvgCharWidth, r) := r.readInt16
  let (usWeightClass, r) := r.readUint16
  let (usWidthClass, r) := r.readUint16
  let (fsType, r) := r.readUint16
  let (ySubscriptXSize, r) := r.readInt16
  let (ySubscriptYSize, r) := r.readInt16
  let (ySubscriptXOffset, r) := r.readInt16
  let (ySubscriptYOffset, r) := r.readInt16
  let (ySuperscriptXSize, r) := r.readInt16
  let (ySuperscriptYSize, r) := r.readInt16
  let (ySuperscriptXOffset, r) := r.readInt16
  let (ySuperscriptYOffset, r) := r.readInt16
  let (yStrikeoutSize, r) := r.readInt16
  let (yStrikeoutPosition, r) := r.readInt16
  let (sFamilyClass, r) := r.readInt16
  let (bFamilyType, r) := r.readUint8
  let (bSerifStyle, r) := r.readUint8
  let (bWeight, r) := r.readUint8
  let (bProportion, r) := r.readUint8
  let (bContrast, r) := r.readUint8
  let (bStrokeVariation, r) := r.readUint8
  let (bArmStyle, r) := r.readUint8
  let (bLetterform, r) := r.readUint8
  let (bMidline, r) := r.readUint8
  let (bXHeight, r) := r.readUint8
  let (ulUnicodeRange1, r) := r.readUint32
  let (ulUnicodeRange2, r) := r.readUint32
  let (ulUnicodeRange3, r) := r.readUint32
  let (ulUnicodeRange4, r) := r.readUint32
  let (achVendID, r) := r.readBytes 4
  let (fsSelection, r) := r.readUint16
  let (usFirstCharIndex, r) := r.readUint16
  let (usLastCharIndex, r) := r.readUint16
  let base : os2Table := ⟨xAvgCharWidth, usWeightClass, usWidthClass, fsType,
    ySubscriptXSize, ySubscriptYSize, ySubscriptXOffset, ySubscriptYOffset,
    ySuperscriptXSize, ySuperscriptYSize, ySuperscriptXOffset, ySuperscriptYOffset,
    yStrikeoutSize, yStrikeoutPosition, sFamilyClass, bFamilyType, bSerifStyle,
    bWeight, bProportion, bContrast, bStrokeVariation, bArmStyle, bLetterform,
    bMidline, bXHeight, ulUnicodeRange1, ulUnicodeRange2, ulUnicodeRange3,
    ulUnicodeRange4, achVendID, fsSelection, usFirstCharIndex, usLastCharIndex,
    0, 0, 0, 0, 0, 0, 0, 0, 0, 0, 0, 0, 0, 0⟩
  let (base, r) :=
    if 78 ≤ b.length then
      let (sTypoAscender, r) := r.readInt16
      let (sTypoDescender, r) := r.readInt16
      let (sTypoLineGap, r) := r.readInt16
      let (usWinAscent, r) := r.readUint16
      let (usWinDescent, r) := r.readUint16
      ({ base with STypoAscender := sTypoAscender, STypoDescender := sTypoDescender,
                   STypoLineGap := sTypoLineGap, UsWinAscent := usWinAscent,
                   UsWinDescent := usWinDescent }, r)
    else (base, r)
  if version = 0 then .ok base else
  let (ulCodePageRange1, r) := r.readUint32
  let (ulCodePageRange2, r) := r.readUint32
  let base := { base with UlCodePageRange1 := ulCodePageRange1,
                          UlCodePageRange2 := ulCodePageRange2 }
  if version = 1 then .ok base else
  let (sxHeight, r) := r.readInt16
  let (sCapHeight, r) := r.readInt16
  let (usDefaultChar, r) := r.readUint16
  let (usBreakChar, r) := r.readUint16
  let (usMaxContent, r) := r.readUint16
  let base := { base with SxHeight := sxHeight, SCapHeight := sCapHeight,
                          UsDefaultChar := usDefaultChar, UsBreakChar := usBreakChar,
                          UsMaxContent := usMaxContent }
  if 2 ≤ version ∧ version ≤ 4 then .ok base else
  let (usLowerOpticalPointSize, r) := r.readUint16
  let (usUpperOpticalPointSize, _) := r.readUint16
  .ok { base with UsLowerOpticalPointSize := usLowerOpticalPointSize,
                  UsUpperOpticalPointSize := usUpperOpticalPointSize }

/-- `postTable` (line 1330). -/
structure postTable where
  ItalicAngle : Nat
  UnderlinePosition : Int
  UnderlineThickness : Int
  IsFixedPitch : Nat
  MinMemType42 : Nat
  MaxMemType42 : Nat
  MinMemType1 : Nat
  MaxMemType1 : Nat
  GlyphName : List String
deriving Repr, DecidableEq

/-- `postTable.Get` (line 1342). -/
def postTable.Get (post : postTable) (glyphID : Nat) : String :=
  if post.GlyphName.length ≤ glyphID then "" else post.GlyphName.getD glyphID ""

/-- Modelled from the spec: the standard 258-entry Macintosh glyph-name
table is a read-only constant not under src/; only the fact that every
index below 258 resolves to some name matters here, so the entries are
abstracted to placeholder strings. -/
def macintoshGlyphNames (i : Nat) : String := "macName" ++ toString i

/-- Bytes of a Go string. -/
def bytesToString (bs : Bytes) : String := String.mk (bs.map (fun v => Char.ofNat (v % 256)))

/-- The trailing string-pool loop of `parsePost` (lines 1381-1388);
each name is one length byte plus that many bytes, and the pool must
consume the table exactly (checked by the caller). -/
def readStringData : Nat → BinaryReader → GoResult (List String × BinaryReader)
  | 0, r => .ok ([], r)
  | fuel + 1, r =>
    if 2 ≤ r.len then
      let (length, r) := r.readUint8
      if r.len < length then .err "post: bad table"
      else
        let (s, r) := r.readBytes length
        match readStringData fuel r with
        | .ok (l, r'') => .ok (bytesToString s :: l, r'')
        | .err m => .err m
        | .panic m => .panic m
    else .ok ([], r)

/-- The glyph-name index loop of `parsePost` (lines 1395-1404): indices
below 258 resolve against the Macintosh table; the guard on pool
indices accepts an index one past the end of the pool, whose access is
then a runtime panic. -/
def readPostNames (stringData : List String) : Nat → BinaryReader → GoResult (List String)
  | 0, _ => .ok []
  | n + 1, r =>
    let (index, r) := r.readUint16
    if index < 258 then
      match readPostNames stringData n r with
      | .ok l => .ok (macintoshGlyphNames index :: l)
      | .err m => .err m
      | .panic m => .panic m
    else if stringData.length < index - 258 then .err "post: bad table"
    else if index - 258 < stringData.length then
      match readPostNames stringData n r with
      | .ok l => .ok (stringData.getD (index - 258) "" :: l)
      | .err m => .err m
      | .panic m => .panic m
    else .panic idxMsg

/-- `SFNT.parsePost` (line 1349); needs `maxp`'s glyph count and the
font flavor. -/
def parsePost (b : Bytes) (numGlyphs : Nat) (isCFF : Bool) : GoResult postTable :=
  if b.length < 32 then .err "post: bad table" else
  let r := BinaryReader.mk0 b
  let (version, r) := r.readBytes 4
  let (italicAngle, r) := r.readUint32
  let (underlinePosition, r) := r.readInt16
  let (underlineThickness, r) := r.readInt16
  let (isFixedPitch, r) := r.readUint32
  let (minMemType42, r) := r.readUint32
  let (maxMemType42, r) := r.readUint32
  let (minMemType1, r) := r.readUint32
  let (maxMemType1, r) := r.readUint32
  let base : postTable := ⟨italicAngle, underlinePosition, underlineThickness,
    isFixedPitch, minMemType42, maxMemType42, minMemType1, maxMemType1, []⟩
  if beVal version = 0x00010000 ∧ ¬isCFF ∧ b.length = 32 then .ok base
  else if beVal version = 0x00020000 ∧ ¬isCFF ∧ 34 ≤ b.length then
    let (ng, r) := r.readUint16
    if ng ≠ numGlyphs then .err "post: numGlyphs does not match maxp table numGlyphs" else
    if b.length < 34 + 2 * numGlyphs then .err "post: bad table" else
    -- get string data first
    let r := r.seek (34 + 2 * numGlyphs)
    match readStringData (r.len + 1) r with
    | .err m => .err m
    | .panic m => .panic m
    | .ok (stringData, r) =>
      if r.len ≠ 0 then .err "post: bad table" else
      let r := r.seek 34
      match readPostNames stringData numGlyphs r with
      | .err m => .err m
      | .panic m => .panic m
      | .ok names => .ok { base with GlyphName := names }
  else if beVal version = 0x00025000 ∧ b.length = 32 then
    .err "post: version 2.5 not supported"
  else if beVal version = 0x00030000 ∧ b.length = 32 then .ok base
  else .err "post: bad table"

/-! ## SFNT facade and ParseSFNT (src/font/sfnt.go lines 14-189) -/

/-- Four-byte table tags, as raw bytes. -/
def tagCmap : Bytes := [99, 109, 97, 112]

def tagHead : Bytes := [104, 101, 97, 100]

def tagHhea : Bytes := [104, 104, 101, 97]

def tagHmtx : Bytes := [104, 109, 116, 120]

def tagMaxp : Bytes := [109, 97, 120, 112]

def tagName : Bytes := [110, 97, 109, 101]

def tagOS2 : Bytes := [79, 83, 47, 50]

def tagPost : Bytes := [112, 111, 115, 116]

def tagGlyf : Bytes := [103, 108, 121, 102]

def tagLoca : Bytes := [108, 111, 99, 97]

def tagKern : Bytes := [107, 101, 114, 110]

def tagOTTO : Bytes := [79, 84, 84, 79]

def tagCFF : Bytes := [67, 70, 70, 32]

def tagCFF2 : Bytes := [67, 70, 70, 50]

/-- Render a tag's bytes as the string Go uses in error messages. -/
def tagString (tag : Bytes) : String := String.mk (tag.map (fun v => Char.ofNat (v % 256)))

/-- Go map insertion (`tables[tag] = ...`): overwrite or append. -/
def tablesInsert (tables : List (Bytes × Bytes)) (tag : Bytes) (v : Bytes) :
    List (Bytes × Bytes) :=
  if tables.any (fun p => p.1 == tag) then
    tables.map (fun p => if p.1 == tag then (tag, v) else p)
  else tables ++ [(tag, v)]

/-- Go map lookup (`b, ok := tables[tag]`). -/
def tablesGet (tables : List (Bytes × Bytes)) (tag : Bytes) : Option Bytes :=
  (tables.find? (fun p => p.1 == tag)).map (·.2)

/-- Modelled from the spec: `ErrInvalidFontData` is not under src/; it
is the malformed-container diagnostic. -/
def errInvalidFontData : String := "invalid font data"

/-- The table-directory loop of `ParseSFNT` (lines 86-115), with the
buffer threaded explicitly because the head table's
checksum-adjustment field is zeroed in place while its checksum is
computed and written back afterwards. Returns the final buffer next to
the outcome. -/
def dirLoop : Nat → Bytes → Nat → List (Bytes × Bytes) →
    GoResult (List (Bytes × Bytes)) × Bytes
  | 0, b, _, tables => (.ok tables, b)
  | n + 1, b, pos, tables =>
    let tag := (b.drop pos).take 4
    let checksum := u32At b (pos + 4)
    let offset := u32At b (pos + 8)
    let length := u32At b (pos + 12)
    let padding := (4 - length % 4) % 4
    if b.length ≤ offset ∨ b.length - offset < length ∨
        b.length - offset - length < padding then
      (.err errInvalidFontData, b)
    else if tag = tagHead ∧ length < 12 then (.err errInvalidFontData, b)
    else
      -- to check checksum for head table, replace the overal checksum
      -- with zero and reset it at the end
      let checksumAdjustment := if tag = tagHead then u32At b (offset + 8) else 0
      let b1 := if tag = tagHead then putU32At b (offset + 8) 0 else b
      if calcChecksum ((b1.drop offset).take (length + padding)) ≠ checksum then
        (.err (tagString tag ++ ": bad checksum"), b1)
      else
        let b2 := if tag = tagHead then putU32At b1 (offset + 8) checksumAdjustment else b1
        dirLoop n b2 (pos + 16) (tablesInsert tables tag ((b2.drop offset).take length))

/-- `SFNT` (line 14); Go's table pointers become options, `none` being
a nil pointer. -/
structure SFNT where
  Data : Bytes
  IsCFF : Bool
  IsTrueType : Bool
  Tables : List (Bytes × Bytes)
  Cmap : Option cmapTable
  Head : Option headTable
  Hhea : Option hheaTable
  Hmtx : Option hmtxTable
  Maxp : Option maxpTable
  Name : Option nameTable
  OS2 : Option os2Table
  Post : Option postTable
  Glyf : Option glyfTable
  Loca : Option locaTable
  Kern : Option kernTable
deriving Repr, DecidableEq

/-- The required-table check of `ParseSFNT` (lines 124-132). -/
def checkRequired (tables : List (Bytes × Bytes)) : List Bytes → Option String
  | [] => none
  | t :: rest =>
    if (tablesGet tables t).isNone then some (tagString t ++ ": missing table")
    else checkRequired tables rest

/-- The per-table decode phase of `ParseSFNT` (lines 118-188): head,
maxp, hhea (then loca for TrueType) in that order, then the remaining
recognized tables in Go's sorted tag order (OS/2, cmap, glyf, hmtx,
kern, name, post). This phase never writes to the buffer. -/
def parseSFNTTables (b : Bytes) (tables : List (Bytes × Bytes)) : GoResult SFNT :=
  let isCFF := b.take 4 = tagOTTO
  let isTrueType := beVal (b.take 4) = 0x00010000
  let required := [tagCmap, tagHead, tagHhea, tagHmtx, tagMaxp, tagName, tagOS2, tagPost] ++
    (if isTrueType then [tagGlyf, tagLoca] else [])
  match checkRequired tables required with
  | some m => .err m
  | none =>
  let hasCFF := (tablesGet tables tagCFF).isSome
  let hasCFF2 := (tablesGet tables tagCFF2).isSome
  if isCFF ∧ ¬hasCFF ∧ ¬hasCFF2 then .err "CFF: missing table"
  else if isCFF ∧ hasCFF ∧ hasCFF2 then .err "CFF2: CFF table already exists"
  else
  -- maxp and hhea tables are required for other tables to be parse first
  match parseHead ((tablesGet tables tagHead).getD []) with
  | .err m => .err m
  | .panic m => .panic m
  | .ok head =>
  match parseMaxp ((tablesGet tables tagMaxp).getD []) isTrueType isCFF with
  | .err m => .err m
  | .panic m => .panic m
  | .ok maxp =>
  match parseHhea ((tablesGet tables tagHhea).getD []) maxp.NumGlyphs with
  | .err m => .err m
  | .panic m => .panic m
  | .ok hhea =>
  let locaRes : GoResult (Option locaTable) :=
    if isTrueType then
      match parseLoca ((tablesGet tables tagLoca).getD []) maxp.NumGlyphs
          head.IndexToLocFormat with
      | .err m => .err m
      | .panic m => .panic m
      | .ok loca => .ok (some loca)
    else .ok none
  match locaRes with
  | .err m => .err m
  | .panic m => .panic m
  | .ok loca =>
  -- sorted-tag loop: "OS/2" < "cmap" < "glyf" < "hmtx" < "kern" < "name" < "post"
  match parseOS2 ((tablesGet tables tagOS2).getD []) with
  | .err m => .err m
  | .panic m => .panic m
  | .ok os2 =>
  match parseCmap ((tablesGet tables tagCmap).getD []) maxp.NumGlyphs with
  | .err m => .err m
  | .panic m => .panic m
  | .ok (cmap, _) =>
  let glyfRes : GoResult (Option glyfTable) :=
    match tablesGet tables tagGlyf with
    | none => .ok none
    | some gb =>
      match loca with
      -- parseGlyf dereferences sfnt.Loca, nil when no loca table was decoded
      | none => .panic nilMsg
      | some loca =>
        match parseGlyf gb loca with
        | .err m => .err m
        | .panic m => .panic m
        | .ok g => .ok (some g)
  match glyfRes with
  | .err m => .err m
  | .panic m => .panic m
  | .ok glyf =>
  match parseHmtx ((tablesGet tables tagHmtx).getD []) hhea.NumberOfHMetrics maxp.NumGlyphs with
  | .err m => .err m
  | .panic m => .panic m
  | .ok hmtx =>
  let kernRes : GoResult (Option kernTable) :=
    match tablesGet tables tagKern with
    | none => .ok none
    | some kb =>
      match parseKern kb with
      | .err m => .err m
      | .panic m => .panic m
      | .ok k => .ok (some k)
  match kernRes with
  | .err m => .err m
  | .panic m => .panic m
  | .ok kern =>
  match parseName ((tablesGet tables tagName).getD []) with
  | .err m => .err m
  | .panic m => .panic m
  | .ok name =>
  match parsePost ((tablesGet tables tagPost).getD []) maxp.NumGlyphs isCFF with
  | .err m => .err m
  | .panic m => .panic m
  | .ok post =>
    .ok ⟨b, isCFF, isTrueType, tables, some cmap, some head, some hhea, some hmtx,
      some maxp, some name, some os2, some post, glyf, loca, kern⟩

/-- `ParseSFNT` (line 66). The buffer is returned alongside the
outcome: the head checksum-adjustment bytes are the only bytes the
function ever writes. -/
def ParseSFNT (b : Bytes) : GoResult SFNT × Bytes :=
  if b.length < 12 ∨ 2147483647 < b.length then (.err errInvalidFontData, b) else
  let sfntVersion := b.take 4
  if sfntVersion ≠ tagOTTO ∧ beVal sfntVersion ≠ 0x00010000 then
    (.err "bad SFNT version", b)
  else
    let numTables := u16At b 4
    -- searchRange, entrySelector, rangeShift are read and discarded
    if b.length < 12 + 16 * numTables then (.err errInvalidFontData, b)
    else
      match dirLoop numTables b 12 [] with
      | (.ok tables, b') => (parseSFNTTables b' tables, b')
      | (.err m, b') => (.err m, b')
      | (.panic m, b') => (.panic m, b')

/-- `SFNT.GlyphIndex` (line 43). -/
def SFNT.GlyphIndex (sfnt : SFNT) (r : Int) : GoResult Nat :=
  match sfnt.Cmap with
  | none => .panic nilMsg
  | some cmap => cmap.Get r

/-- `SFNT.GlyphName` (line 47). -/
def SFNT.GlyphName (sfnt : SFNT) (glyphID : Nat) : GoResult String :=
  match sfnt.Post with
  | none => .panic nilMsg
  | some post => .ok (post.Get glyphID)

/-- `SFNT.GlyphContour` (line 51). -/
def SFNT.GlyphContour (sfnt : SFNT) (glyphID : Nat) : GoResult (Option glyfContour) :=
  if ¬sfnt.IsTrueType then .err "CFF not supported"
  else
    match sfnt.Glyf with
    | none => .panic nilMsg
    | some glyf => glyf.Contour glyphID 0

/-- `SFNT.GlyphAdvance` (line 58). -/
def SFNT.GlyphAdvance (sfnt : SFNT) (glyphID : Nat) : GoResult Nat :=
  match sfnt.Hmtx with
  | none => .panic nilMsg
  | some hmtx => hmtx.Advance glyphID

/-- `SFNT.Kerning` (line 62): `sfnt.Kern.Get` dereferences the `Kern`
pointer, which is nil when the optional kern table is absent. -/
def SFNT.Kerning (sfnt : SFNT) (left right : Nat) : GoResult Int :=
  match sfnt.Kern with
  | none => .panic nilMsg
  | some kern => .ok (kern.Get left right)

def GoResult.getD : GoResult α → α → α
  | .ok v, _ => v
  | _, d => d

/-! ## Concrete inputs used by the theorems -/

/-- Big-endian byte encodings, for assembling concrete font data. -/
def u16bytes (v : Nat) : Bytes := [v / 256 % 256, v % 256]

def u32bytes (v : Nat) : Bytes :=
  [v / 16777216 % 256, v / 65536 % 256, v / 256 % 256, v % 256]

/-- A simple glyph with one contour whose single end point is 0 (so one
point), followed by a flag byte carrying REPEAT_FLAG with repeat count
1: the run expansion writes one slot past the flags array. -/
def flagPanicGlyfData : Bytes :=
  u16bytes 1 ++ u16bytes 0 ++ u16bytes 0 ++ u16bytes 0 ++ u16bytes 0 ++
  u16bytes 0 ++ u16bytes 0 ++ [8, 1]

def flagPanicGlyf : glyfTable := ⟨flagPanicGlyfData, ⟨[0, 16]⟩⟩

/-- A composite glyph whose single component is the glyph itself:
a direct cycle. -/
def cyclicGlyfData : Bytes :=
  u16bytes 0xFFFF ++ u16bytes 0 ++ u16bytes 0 ++ u16bytes 0 ++ u16bytes 0 ++
  u16bytes 3 ++ u16bytes 0 ++ u16bytes 0 ++ u16bytes 0

def cyclicGlyf : glyfTable := ⟨cyclicGlyfData, ⟨[0, 18]⟩⟩

/-- A format-4 subtable with three segments; segment 0 is
[0x10, 0x12] with idRangeOffset 2, so the decode-time check at the end
code passes with index 0 while a lookup at the start code computes
index -2. -/
def negIndexFormat4Bytes : Bytes :=
  u16bytes 4 ++ u16bytes 42 ++ u16bytes 0 ++ u16bytes 6 ++
  u16bytes 0 ++ u16bytes 0 ++ u16bytes 0 ++
  u16bytes 0x12 ++ u16bytes 0x20 ++ u16bytes 0x30 ++
  u16bytes 0 ++
  u16bytes 0x10 ++ u16bytes 0x20 ++ u16bytes 0x30 ++
  u16bytes 0 ++ u16bytes 0 ++ u16bytes 0 ++
  u16bytes 2 ++ u16bytes 0 ++ u16bytes 0 ++
  u16bytes 0

/-- A format-4 subtable with the single segment [0x41, 0x41],
idDelta 29, idRangeOffset 0, decoded against a one-glyph font. -/
def deltaFormat4Bytes : Bytes :=
  u16bytes 4 ++ u16bytes 24 ++ u16bytes 0 ++ u16bytes 2 ++
  u16bytes 0 ++ u16bytes 0 ++ u16bytes 0 ++
  u16bytes 0x41 ++ u16bytes 0 ++ u16bytes 0x41 ++ u16bytes 29 ++ u16bytes 0

/-- The spec's scenario-B subtable: segments (0x41,0x41,idDelta=29,0)
and (0x42,0x42,idDelta=29,0). -/
def scenarioBFormat4 : cmapFormat4 := ⟨[0x41, 0x42], [0x41, 0x42], [29, 29], [0, 0], []⟩

def scenarioBCmap : cmapTable := ⟨[], [.format4 scenarioBFormat4]⟩

/-- A cmap whose second subtable's byte range [30, 40) lies strictly
inside the first one's [20, 44): the overlap scans in `parseCmap` miss
this configuration because the first scan compares the offset against
a stored length as if it were an end position, and the second scan
only rejects an existing start falling inside the new range. -/
def overlapCmapBytes : Bytes :=
  u16bytes 0 ++ u16bytes 2 ++
  u16bytes 3 ++ u16bytes 1 ++ u32bytes 20 ++
  u16bytes 3 ++ u16bytes 1 ++ u32bytes 30 ++
  u16bytes 6 ++ u16bytes 24 ++ u16bytes 0 ++ u16bytes 0 ++ u16bytes 0 ++
  u16bytes 6 ++ u16bytes 10 ++ u16bytes 0 ++ u16bytes 0 ++ u16bytes 0 ++
  u16bytes 0 ++ u16bytes 0

/-- A version-2.0 post table for a one-glyph font whose single name
index is 258 while the trailing string pool is empty: the index equals
258 plus the pool size. -/
def postOffByOneBytes : Bytes :=
  u32bytes 0x00020000 ++ u32bytes 0 ++ u16bytes 0 ++ u16bytes 0 ++
  u32bytes 0 ++ u32bytes 0 ++ u32bytes 0 ++ u32bytes 0 ++ u32bytes 0 ++
  u16bytes 1 ++ u16bytes 258

/-- A head table whose checksum-adjustment field is 0x12345678. -/
def headBytesC4 : Bytes :=
  u16bytes 1 ++ u16bytes 0 ++ u32bytes 0 ++ u32bytes 0x12345678 ++ List.replicate 42 0

/-- A font whose only table is a head table with a deliberately wrong
directory checksum (stored 1, computed 65536). -/
def badChecksumFont : Bytes :=
  u32bytes 0x00010000 ++ u16bytes 1 ++ u16bytes 0 ++ u16bytes 0 ++ u16bytes 0 ++
  tagHead ++ u32bytes 1 ++ u32bytes 28 ++ u32bytes 54 ++
  headBytesC4 ++ [0, 0]

/-- One directory record. -/
def dirEntry (tag : Bytes) (checksum offset length : Nat) : Bytes :=
  tag ++ u32bytes checksum ++ u32bytes offset ++ u32bytes length

def cmapMin : Bytes := u16bytes 0 ++ u16bytes 0

def headMin : Bytes :=
  u16bytes 1 ++ u16bytes 0 ++ u32bytes 0 ++ u32bytes 0 ++ u32bytes 0x5F0F3CF5 ++
  u16bytes 0 ++ u16bytes 1000 ++ List.replicate 16 0 ++ List.replicate 8 0 ++
  u16bytes 0 ++ u16bytes 0 ++ u16bytes 0 ++ u16bytes 0 ++ u16bytes 0

def hheaMin : Bytes := u16bytes 1 ++ u16bytes 0 ++ List.replicate 30 0 ++ u16bytes 1

def hmtxMin : Bytes := List.replicate 4 0

def locaMin : Bytes := List.replicate 4 0

def maxpMin : Bytes := u32bytes 0x00010000 ++ u16bytes 1 ++ List.replicate 26 0

def nameMin : Bytes := u16bytes 0 ++ u16bytes 0 ++ u16bytes 0

def os2Min : Bytes := List.replicate 68 0

def postMin : Bytes := u32bytes 0x00030000 ++ List.replicate 28 0

/-- A complete, well-formed one-glyph TrueType font containing exactly
the required tables (head, maxp, hhea, hmtx, loca, glyf, cmap, name,
OS/2, post) and no kern table; every directory checksum is the actual
checksum of the table's padded bytes. -/
def minimalFont : Bytes :=
  u32bytes 0x00010000 ++ u16bytes 10 ++ u16bytes 0 ++ u16bytes 0 ++ u16bytes 0 ++
  dirEntry tagCmap (calcChecksum cmapMin) 172 4 ++
  dirEntry tagGlyf 0 176 0 ++
  dirEntry tagHead (calcChecksum (headMin ++ [0, 0])) 176 54 ++
  dirEntry tagHhea (calcChecksum hheaMin) 232 36 ++
  dirEntry tagHmtx (calcChecksum hmtxMin) 268 4 ++
  dirEntry tagLoca (calcChecksum locaMin) 272 4 ++
  dirEntry tagMaxp (calcChecksum maxpMin) 276 32 ++
  dirEntry tagName (calcChecksum (nameMin ++ [0, 0])) 308 6 ++
  dirEntry tagOS2 (calcChecksum os2Min) 316 68 ++
  dirEntry tagPost (calcChecksum postMin) 384 32 ++
  cmapMin ++ headMin ++ [0, 0] ++ hheaMin ++ hmtxMin ++ locaMin ++ maxpMin ++
  nameMin ++ [0, 0] ++ os2Min ++ postMin

/-- Placeholder value for `GoResult.getD` on results known to be ok. -/
def emptySFNT : SFNT :=
  ⟨[], false, false, [], none, none, none, none, none, none, none, none, none, none, none⟩

/-- A complete cmap table holding `negIndexFormat4Bytes` as its only
subtable, for a one-glyph font. -/
def negIndexCmapBytes : Bytes :=
  u16bytes 0 ++ u16bytes 1 ++ u16bytes 3 ++ u16bytes 1 ++ u32bytes 12 ++
  negIndexFormat4Bytes

/-- The subtable decoded from `negIndexCmapBytes`. -/
def negIndexSubtable : cmapFormat4 :=
  ⟨[0x10, 0x20, 0x30], [0x12, 0x20, 0x30], [0, 0, 0], [2, 0, 0], [0]⟩

/-- A complete cmap table holding `deltaFormat4Bytes` as its only
subtable, for a one-glyph font. -/
def deltaCmapBytes : Bytes :=
  u16bytes 0 ++ u16bytes 1 ++ u16bytes 3 ++ u16bytes 1 ++ u32bytes 12 ++
  deltaFormat4Bytes

/-- The subtable decoded from `deltaCmapBytes`. -/
def deltaSubtable : cmapFormat4 := ⟨[0x41], [0x41], [29], [0], []⟩

/-! ## Theorems for the claims -/

/-- Reading two bytes from a fresh reader over a buffer with at least
two bytes. -/
theorem readBytes2_mk0_cons (b0 b1 : Nat) (tl : Bytes) :
    (BinaryReader.mk0 (b0 :: b1 :: tl)).readBytes 2 =
      ([b0, b1], ⟨b0 :: b1 :: tl, 2, false⟩) := by
  unfold BinaryReader.readBytes BinaryReader.mk0
  rw [if_neg (by simp)]
  simp

/-- The first 16-bit read of a glyph header. -/
theorem readInt16_mk0_cons (b0 b1 : Nat) (tl : Bytes) :
    (BinaryReader.mk0 (b0 :: b1 :: tl)).readInt16 =
      (asInt16 (b0 * 256 + b1), ⟨b0 :: b1 :: tl, 2, false⟩) := by
  unfold BinaryReader.readInt16 BinaryReader.readUint16
  rw [readBytes2_mk0_cons]
  simp [beVal]

/-- At any level above 7, resolving a composite glyph (negative contour
count) is the depth-cap decode error, before any recursive call. -/
theorem contourAux_depth (glyf : glyfTable) (gas glyphID level : Nat) (b : Bytes)
    (hlevel : 7 < level) (hget : glyf.Get glyphID = .ok (some b))
    (hlen : 10 ≤ b.length) (hneg : asInt16 (u16At b 0) < 0) :
    glyf.ContourAux (gas + 1) glyphID level = .err "glyf: compound glyphs too deeply nested" := by
  obtain ⟨b0, b1, tl, rfl⟩ : ∃ b0 b1 tl, b = b0 :: b1 :: tl := by
    match b, hlen with
    | b0 :: b1 :: tl, _ => exact ⟨b0, b1, tl, rfl⟩
  simp only [u16At, byteAt, List.getD_cons_zero, List.getD_cons_succ] at hneg
  simp only [glyfTable.ContourAux]
  rw [hget]
  split
  next m heq => simp at heq
  next m heq => simp at heq
  next heq => simp at heq
  next b' heq =>
    have hb' : b' = b0 :: b1 :: tl := by
      injection heq with h1
      injection h1 with h2
      exact h2.symm
    subst hb'
    rw [if_neg (by simp),
      if_neg (by simp [BinaryReader.mk0, BinaryReader.len]; simp at hlen; omega),
      readInt16_mk0_cons]
    rw [if_neg (by exact Int.not_le.mpr hneg), if_pos hlevel]

/-- C7: `glyfTable.Contour` caps composite recursion: at any nesting
level above 7 a composite glyph is rejected with the depth-cap decode
error before recursing, and the self-referencing composite glyph of
`cyclicGlyf` (a direct cycle, giving a chain of 9 levels) fails with
exactly that error instead of recursing indefinitely. -/
theorem contour_recursion_depth_capped :
    (∀ (glyf : glyfTable) (glyphID level : Nat) (b : Bytes), 7 < level →
        glyf.Get glyphID = .ok (some b) → 10 ≤ b.length → asInt16 (u16At b 0) < 0 →
        glyf.Contour glyphID level = .err "glyf: compound glyphs too deeply nested") ∧
    cyclicGlyf.Contour 0 0 = .err "glyf: compound glyphs too deeply nested" := by
  constructor
  · intro glyf glyphID level b hlevel hget hlen hneg
    exact contourAux_depth glyf 8 glyphID level b hlevel hget hlen hneg
  · rfl

/-- C7 witness: the depth-cap theorem applied at level 8 to the cyclic
composite glyph. -/
theorem contour_recursion_depth_capped_witness :
    cyclicGlyf.Contour 0 8 = .err "glyf: compound glyphs too deeply nested" :=
  contour_recursion_depth_capped.1 cyclicGlyf 0 8 cyclicGlyfData (by decide) (by rfl)
    (by decide) (by decide)

/-- C1: the claim says resolving a glyph outline never panics and never
writes outside the decoded buffers, in particular while expanding the
run-length-encoded per-point flags; but a simple glyph with one point
and a REPEAT_FLAG run of length 1 makes `glyfTable.Contour` write one
slot past the flags array, a runtime panic, so the code contradicts the
spec's safety guarantee. -/
theorem contour_flag_expansion_panics :
    flagPanicGlyf.Contour 0 0 = .panic idxMsg := by rfl

/-- C2: the claim says the decode-time index check suffices for every
code point of a nonzero-idRangeOffset segment; but the check only
bounds the index at the segment's END code, and for the decoded
subtable of `negIndexCmapBytes` (accepted by `parseCmap`) the lookup at
the segment's start code 0x10 computes glyph-index-array index -2 and
panics. -/
theorem format4_lookup_index_out_of_bounds :
    parseCmap negIndexCmapBytes 1 =
      .ok (⟨[⟨3, 1, 4, 0⟩], [.format4 negIndexSubtable]⟩, [(0, 12), (12, 42)]) ∧
    negIndexSubtable.Get 0x10 = .panic idxMsg := by
  exact ⟨by rfl, by rfl⟩

/-- C3 counterexample: the claim says every in-segment lookup returns a
glyph ID below `numGlyphs`; but for the subtable of `deltaCmapBytes`,
decoded successfully against a one-glyph font, the idRangeOffset==0
path returns glyph ID 94 = (0x41 + 29) mod 65536 ≥ 1, because only
glyph-index-array entries are validated at decode time. -/
theorem format4_idDelta_glyph_exceeds_numGlyphs :
    parseCmap deltaCmapBytes 1 =
      .ok (⟨[⟨3, 1, 4, 0⟩], [.format4 deltaSubtable]⟩, [(0, 12), (12, 24)]) ∧
    deltaSubtable.Get 0x41 = .ok (94, true) ∧ ¬((94 : Nat) < 1) := by
  exact ⟨by rfl, by rfl, by decide⟩

/-- C5: the claim says any partial overlap between two non-identical
cmap subtables is rejected; but `parseCmap` accepts
`overlapCmapBytes`, whose second subtable range [30, 40) lies strictly
inside the first one's [20, 44): the source's own comment promises the
subtables "don't overlap each other", yet the first scan compares
offsets against stored lengths as if they were end positions and the
second scan only rejects an existing start inside the new range. -/
theorem parseCmap_accepts_partial_overlap :
    (parseCmap overlapCmapBytes 1).isOk = true ∧
    ((parseCmap overlapCmapBytes 1).getD (⟨[], []⟩, [])).2 = [(0, 20), (20, 24), (30, 10)] ∧
    (20 < 30 + 10 ∧ 30 < 20 + 24 ∧ ((20, 24) : Nat × Nat) ≠ (30, 10)) := by
  exact ⟨by rfl, by rfl, by decide⟩

set_option maxRecDepth 100000 in
/-- C8: the claim says the kerning lookup is total even for fonts
without a kern table; but `minimalFont` — a complete TrueType font with
all ten required tables and no kern table — parses successfully, and
`SFNT.Kerning` then dereferences the nil `Kern` pointer and panics
instead of returning 0. -/
theorem kerning_without_kern_table_panics :
    (ParseSFNT minimalFont).1.isOk = true ∧
    ((ParseSFNT minimalFont).1.getD emptySFNT).Kern = none ∧
    ((ParseSFNT minimalFont).1.getD emptySFNT).Kerning 0 0 = .panic nilMsg := by
  exact ⟨by rfl, by rfl, by rfl⟩

/-- C9 counterexample: the claim (spec scenario B) says looking up 'A'
(0x41) in the two-segment subtable with idDelta 29 returns glyph 30;
but the idRangeOffset==0 path computes (0x41 + 29) mod 65536 = 94. -/
theorem scenarioB_returns_94_not_30 :
    scenarioBFormat4.Get 0x41 = .ok (94, true) ∧ (94 : Nat) ≠ 30 := by
  exact ⟨by rfl, by decide⟩

/-- C9 amended: looking up 'A' (0x41) returns glyph ID 94 (that is,
(0x41 + idDelta) mod 65536), and looking up 'C' (0x43) is unmapped, so
the top-level cmap lookup yields glyph ID 0. -/
theorem scenarioB_lookups :
    scenarioBFormat4.Get 0x41 = .ok (94, true) ∧
    scenarioBFormat4.Get 0x43 = .ok (0, false) ∧
    scenarioBCmap.Get 0x43 = .ok 0 := by
  exact ⟨by rfl, by rfl, by rfl⟩

/-- C10: the claim says a version-2.0 post table name index equal to
258 plus the string-pool size is rejected; but the guard
`len(stringData) < int(index)-258` accepts it (off by one), and the
pool access then panics: `postOffByOneBytes` has one glyph with name
index 258 over an empty pool. -/
theorem post_name_index_off_by_one_panics :
    parsePost postOffByOneBytes 1 false = .panic idxMsg := by rfl

/-- C4 counterexample: the claim says the buffer holds exactly its
original contents on every return path; but when the head table's
checksum verification fails, `ParseSFNT` returns without restoring the
zeroed checksum-adjustment field, so `badChecksumFont` comes back
modified. -/
theorem parseSFNT_head_checksum_error_mutates_buffer :
    (ParseSFNT badChecksumFont).1 = .err "head: bad checksum" ∧
    (ParseSFNT badChecksumFont).2 ≠ badChecksumFont := by
  exact ⟨by rfl, by decide⟩

end Canvas
